import Mathlib

/-!
Shallow embedding of the window / frame-buffer lifecycle tracker of
`examples/22-windows/windows.cpp` (class `ExampleWindows`).

The tracker keeps a fixed table of `MAX_WINDOWS` slots: `m_windows[i]` is the
last observed `entry::WindowState` of window `i` and `m_fbh[i]` the bgfx frame
buffer bound to that window's native handle.  The operations embedded here are

* `updateTracking` — the handle/size tracking segment of `ExampleWindows::update`
  (windows.cpp lines 315-352);
* `createWindow` — `ExampleWindows::createWindow` (lines 479-489);
* `destroyWindow` — `ExampleWindows::destroyWindow` (lines 491-512);
* `screenShotRequests` — the `bgfx::requestScreenShot` calls issued by
  `update` (lines 384-393 and 396-425);
* `cubeSubmissions` — the view ids of the 11x11 cube submit loop (lines 442-467).

Calls into the external collaborators (`bgfx::destroy`, `bgfx::createFrameBuffer`,
`bgfx::frame`, `entry::destroyWindow`) are recorded as an event trace `Ev` so
that ordering properties can be stated.  Results handed back by the
collaborators (`entry::createWindow`, `bgfx::createFrameBuffer`,
`entry::processWindowEvents`) are parameters of the corresponding operation.
-/

/-- `UINT16_MAX`, the sentinel index of an invalid `entry::WindowHandle`. -/
def UINT16_MAX : Nat := 65535

/-- `bgfx::kInvalidHandle`, the sentinel index of an invalid bgfx handle. -/
def kInvalidHandle : Nat := 65535

/-- `MAX_WINDOWS` from windows.cpp line 21. -/
abbrev MAX_WINDOWS : Nat := 8

/-- `entry::WindowHandle`: a 16-bit index, `UINT16_MAX` meaning invalid. -/
structure WindowHandle where
  idx : Nat
deriving DecidableEq

/-- `entry::isValid` on window handles: `UINT16_MAX != _handle.idx`. -/
def entryIsValid (h : WindowHandle) : Bool := h.idx != UINT16_MAX

/-- `bgfx::FrameBufferHandle`: a 16-bit index, `kInvalidHandle` meaning invalid. -/
structure FrameBufferHandle where
  idx : Nat
deriving DecidableEq

/-- `bgfx::isValid` on frame-buffer handles: `_handle.idx != kInvalidHandle`. -/
def bgfxIsValid (h : FrameBufferHandle) : Bool := h.idx != kInvalidHandle

/-- `entry::WindowState` (the fields windows.cpp reads): window handle, native
window handle (`none` models `NULL`), and pixel dimensions. -/
structure WindowState where
  m_handle : WindowHandle
  m_nwh : Option Nat
  m_width : Nat
  m_height : Nat
deriving DecidableEq

/-- The slot-table state of `ExampleWindows`: default-window size, frame
counter, the window-state table `m_windows` and the frame-buffer table `m_fbh`. -/
structure Tracker where
  m_width : Nat
  m_height : Nat
  m_frame : Nat
  m_windows : Fin MAX_WINDOWS → WindowState
  m_fbh : Fin MAX_WINDOWS → FrameBufferHandle

/-- Calls made into the external collaborators, in program order.
`destroyFbh i` is `bgfx::destroy(m_fbh[i])` followed by marking the slot
invalid, `createFbh i w h` is `m_fbh[i] = bgfx::createFrameBuffer(nwh, w, h)`,
`frame` is `bgfx::frame()`, and `destroyWin i` is
`entry::destroyWindow(m_windows[i].m_handle)`. -/
inductive Ev where
  | destroyFbh (i : Nat)
  | createFbh (i w h : Nat)
  | frame
  | destroyWin (i : Nat)
deriving DecidableEq

/-- Default-constructed `entry::WindowState` (entry.h: handle `UINT16_MAX`,
`NULL` native handle, zero size). -/
def emptyWindowState : WindowState :=
  { m_handle := ⟨UINT16_MAX⟩, m_nwh := none, m_width := 0, m_height := 0 }

/-- Tracker state right after `ExampleWindows::init`: the window table is
default-constructed and `bx::memSet(m_fbh, 0xff, sizeof(m_fbh))` (line 276)
fills every frame-buffer handle with `kInvalidHandle`. -/
def initTracker (w h : Nat) : Tracker :=
  { m_width := w
  , m_height := h
  , m_frame := 0
  , m_windows := fun _ => emptyWindowState
  , m_fbh := fun _ => ⟨kInvalidHandle⟩ }

/-- The per-slot body of the tracking segment of `update` (lines 325-351),
for the slot `i` named by the reported state: compare stored native handle and
size with the reported ones; on mismatch destroy the old frame buffer (if any),
store the reported values, and either create a frame buffer from the native
handle (truncating the sizes to `uint16_t`) or — when the native handle is
`NULL` — invalidate the slot's window handle.  `fbNew` is the handle returned
by `bgfx::createFrameBuffer`. -/
def updateSlot (s : Tracker) (st : WindowState) (fbNew : FrameBufferHandle)
    (i : Fin MAX_WINDOWS) : Tracker × List Ev :=
  let win := s.m_windows i
  if win.m_nwh ≠ st.m_nwh ∨ win.m_width ≠ st.m_width ∨ win.m_height ≠ st.m_height then
    let destroyEvs : List Ev :=
      if bgfxIsValid (s.m_fbh i) then [Ev.destroyFbh i.val] else []
    let fbh1 : Fin MAX_WINDOWS → FrameBufferHandle :=
      if bgfxIsValid (s.m_fbh i) then
        fun j => if j = i then ⟨kInvalidHandle⟩ else s.m_fbh j
      else s.m_fbh
    if st.m_nwh ≠ none then
      ({ s with
          m_windows := fun j =>
            (if j = i then
              { win with m_nwh := st.m_nwh, m_width := st.m_width, m_height := st.m_height }
            else s.m_windows j)
        , m_fbh := fun j => (if j = i then fbNew else fbh1 j) }
      , destroyEvs ++ [Ev.createFbh i.val (st.m_width % 65536) (st.m_height % 65536)])
    else
      ({ s with
          m_windows := fun j =>
            (if j = i then
              { win with
                  m_nwh := st.m_nwh, m_width := st.m_width, m_height := st.m_height,
                  m_handle := ⟨UINT16_MAX⟩ }
            else s.m_windows j)
        , m_fbh := fbh1 }
      , destroyEvs)
  else (s, [])

/-- Lines 315-352 of `update`: if the reported window handle is valid then
either (index 0) record the new default-window size, or (nonzero index) run
the per-slot tracking body at `viewId = (uint8_t)m_state.m_handle.idx`.
`m_windows[viewId]` is an unchecked access into a table of `MAX_WINDOWS`
entries, so `viewId ≥ MAX_WINDOWS` is modelled as `none` (out of bounds). -/
def updateTracking (s : Tracker) (st : WindowState) (fbNew : FrameBufferHandle) :
    Option (Tracker × List Ev) :=
  if entryIsValid st.m_handle then
    if st.m_handle.idx = 0 then
      some ({ s with m_width := st.m_width, m_height := st.m_height }, [])
    else if h8 : st.m_handle.idx % 256 < MAX_WINDOWS then
      some (updateSlot s st fbNew ⟨st.m_handle.idx % 256, h8⟩)
    else none
  else some (s, [])

/-- The arguments `ExampleWindows::createWindow` passes to
`entry::createWindow` (line 481): position `rand()%1280`, `rand()%720` and
fixed size 640 by 480. -/
def createWindowRequest (rx ry : Nat) : Nat × Nat × Nat × Nat :=
  (rx % 1280, ry % 720, 640, 480)

/-- `ExampleWindows::createWindow` (lines 479-489), with the handle returned
by `entry::createWindow` as parameter: if it is valid, record it at
`m_windows[handle.idx]` — an unchecked access, modelled as `none` when the
index is out of the table's bounds. -/
def createWindow (s : Tracker) (h : WindowHandle) : Option Tracker :=
  if entryIsValid h then
    if hlt : h.idx < MAX_WINDOWS then
      some { s with m_windows := fun j =>
        (if j = (⟨h.idx, hlt⟩ : Fin MAX_WINDOWS) then
          { s.m_windows ⟨h.idx, hlt⟩ with m_handle := h }
        else s.m_windows j) }
    else none
  else some s

/-- Modelled from the spec: `entry::createWindow` (the windowing collaborator,
whose code is not under src/) hands out the lowest free window slot; slot 0 is
the primary/default window and is always taken, so the first free slot is the
lowest non-default slot whose recorded window handle is invalid. -/
def firstFreeSlot (s : Tracker) : Option (Fin MAX_WINDOWS) :=
  ((List.finRange MAX_WINDOWS).drop 1).find?
    (fun i => !(entryIsValid ((s.m_windows i).m_handle)))

/-- The frame-buffer half of one `destroyWindow` loop iteration
(lines 495-503): if slot `i` holds a valid frame buffer, destroy it, mark it
invalid and issue two `bgfx::frame()` flushes. -/
def destroyStepFbh (s : Tracker) (i : Fin MAX_WINDOWS) : Tracker × List Ev :=
  if bgfxIsValid (s.m_fbh i) then
    ({ s with m_fbh := fun j => if j = i then ⟨kInvalidHandle⟩ else s.m_fbh j }
    , [Ev.destroyFbh i.val, Ev.frame, Ev.frame])
  else (s, [])

/-- The `for (ii = 0; ii < MAX_WINDOWS; ++ii)` loop of `destroyWindow`
(lines 493-511), written with structural fuel (`destroyWindow` supplies
`MAX_WINDOWS`, which covers every iteration): run the frame-buffer step, then
if slot `ii` holds a valid window handle destroy the OS window, invalidate the
handle and return; otherwise continue with the next slot. -/
def destroyLoopAux : Nat → Tracker → Nat → Tracker × List Ev
  | 0, s, _ => (s, [])
  | fuel + 1, s, ii =>
    if h : ii < MAX_WINDOWS then
      let i : Fin MAX_WINDOWS := ⟨ii, h⟩
      let p := destroyStepFbh s i
      if entryIsValid ((p.1.m_windows i).m_handle) then
        ({ p.1 with m_windows := fun j =>
            (if j = i then { p.1.m_windows i with m_handle := ⟨UINT16_MAX⟩ }
            else p.1.m_windows j) }
        , p.2 ++ [Ev.destroyWin ii])
      else
        let q := destroyLoopAux fuel p.1 (ii + 1)
        (q.1, p.2 ++ q.2)
    else (s, [])

/-- `ExampleWindows::destroyWindow` (lines 491-512). -/
def destroyWindow (s : Tracker) : Tracker × List Ev :=
  destroyLoopAux MAX_WINDOWS s 0

/-- The `bgfx::requestScreenShot` calls one `update` tick issues
(lines 384-393 for the default backbuffer, lines 396-425 inside the
per-view loop over `ii = 1 .. MAX_WINDOWS-1`): on frames where
`m_frame % 300 == 0` the default window and every slot holding a valid frame
buffer get a request named `temp/frame_<m_frame/300>_<index>`. -/
def screenShotRequests (s : Tracker) : List (FrameBufferHandle × String) :=
  (if s.m_frame % 300 = 0 then
    [((⟨kInvalidHandle⟩ : FrameBufferHandle)
     , "temp/" ++ "frame_" ++ Nat.repr (s.m_frame / 300) ++ "_0")]
  else [])
  ++ ((List.finRange MAX_WINDOWS).drop 1).filterMap (fun ii =>
      if bgfxIsValid (s.m_fbh ii) then
        if s.m_frame % 300 = 0 then
          some (s.m_fbh ii
               , "temp/" ++ "frame_" ++ Nat.repr (s.m_frame / 300) ++ "_" ++ Nat.repr ii.val)
        else none
      else none)

/-- The view ids of the 121 `bgfx::submit(count % MAX_WINDOWS, m_program)`
calls of the 11x11 cube loop (lines 442-467); `count` increments once per
submit, so the submit at `(yy, xx)` goes to view `(yy*11 + xx) % MAX_WINDOWS`. -/
def cubeSubmissions : List Nat :=
  (List.range 11).flatMap fun yy =>
    (List.range 11).map fun xx => (yy * 11 + xx) % MAX_WINDOWS

/-- One interaction of the tracker with its collaborators.  The side
conditions on the collaborator-supplied handles are modelled from the spec:
`entry` tracks at most `MAX_WINDOWS` windows, so every window handle it
reports or returns has index below `MAX_WINDOWS`, and slot 0 (the
primary/default window, owned by `entry` from process start) is never handed
out by `entry::createWindow`. -/
inductive Step : Tracker → Tracker → Prop where
  | update : ∀ s st fb s' tr,
      (entryIsValid st.m_handle = true → st.m_handle.idx < MAX_WINDOWS) →
      updateTracking { s with m_frame := s.m_frame + 1 } st fb = some (s', tr) →
      Step s s'
  | create : ∀ s h s',
      (entryIsValid h = true → h.idx < MAX_WINDOWS ∧ h.idx ≠ 0) →
      createWindow s h = some s' →
      Step s s'
  | destroy : ∀ s, Step s (destroyWindow s).1

/-- Tracker states reachable from `init` under the modelled operations. -/
inductive Reachable : Tracker → Prop where
  | init : ∀ w h, Reachable (initTracker w h)
  | step : ∀ s s', Reachable s → Step s s' → Reachable s'

/-- A sample tracker used by the concrete witnesses: window 2 is open with a
valid frame buffer, every other slot is free. -/
def sampleT : Tracker :=
  { m_width := 1280, m_height := 720, m_frame := 600
  , m_windows := fun j =>
      (if j.val = 2 then
        { m_handle := ⟨2⟩, m_nwh := some 100, m_width := 640, m_height := 480 }
      else emptyWindowState)
  , m_fbh := fun j => (if j.val = 2 then ⟨5⟩ else ⟨kInvalidHandle⟩) }

example : (destroyWindow sampleT).2
    = [Ev.destroyFbh 2, Ev.frame, Ev.frame, Ev.destroyWin 2] := by decide

example : ((destroyWindow sampleT).1.m_windows ⟨2, by decide⟩).m_handle.idx = UINT16_MAX := by decide

example : firstFreeSlot sampleT = some ⟨1, by decide⟩ := by decide

example : (updateTracking sampleT
    { m_handle := ⟨2⟩, m_nwh := some 101, m_width := 640, m_height := 480 } ⟨7⟩).isSome = true := by decide

example :
    (updateTracking sampleT
      { m_handle := ⟨2⟩, m_nwh := some 101, m_width := 640, m_height := 480 } ⟨7⟩).map Prod.snd
    = some [Ev.destroyFbh 2, Ev.createFbh 2 640 480] := by decide

example : cubeSubmissions.count 1 = 15 := by decide
example : cubeSubmissions.length = 121 := by decide
example : (screenShotRequests sampleT).length = 2 := by decide
example : (screenShotRequests sampleT) =
    [(⟨kInvalidHandle⟩, "temp/frame_2_0"), (⟨5⟩, "temp/frame_2_2")] := by decide

lemma entryIsValid_false_iff (h : WindowHandle) :
    entryIsValid h = false ↔ h.idx = UINT16_MAX := by
  simp [entryIsValid]

lemma bgfxIsValid_false_iff (h : FrameBufferHandle) :
    bgfxIsValid h = false ↔ h.idx = kInvalidHandle := by
  simp [bgfxIsValid]

lemma destroyStepFbh_windows (s : Tracker) (i : Fin MAX_WINDOWS) :
    (destroyStepFbh s i).1.m_windows = s.m_windows := by
  unfold destroyStepFbh; split <;> rfl

lemma destroyStepFbh_fbh_ne (s : Tracker) (i j : Fin MAX_WINDOWS) (hne : j ≠ i) :
    (destroyStepFbh s i).1.m_fbh j = s.m_fbh j := by
  unfold destroyStepFbh; split
  · simp [hne]
  · rfl

lemma destroyStepFbh_fbh_self (s : Tracker) (i : Fin MAX_WINDOWS) :
    bgfxIsValid ((destroyStepFbh s i).1.m_fbh i) = false := by
  unfold destroyStepFbh; split
  · simp [bgfxIsValid]
  · next hv => simpa using hv

lemma destroyStepFbh_events (s : Tracker) (i : Fin MAX_WINDOWS) :
    (destroyStepFbh s i).2 =
      if bgfxIsValid (s.m_fbh i) then [Ev.destroyFbh i.val, Ev.frame, Ev.frame] else [] := by
  unfold destroyStepFbh; split <;> simp_all

lemma destroyLoopAux_tags (fuel : Nat) :
    ∀ (s : Tracker) (ii : Nat) (e : Ev),
      e ∈ (destroyLoopAux fuel s ii).2 →
      e = Ev.frame ∨ ∃ j, ii ≤ j ∧ j < MAX_WINDOWS ∧ (e = Ev.destroyFbh j ∨ e = Ev.destroyWin j) := by
  induction fuel with
  | zero => intro s ii e hmem; simp [destroyLoopAux] at hmem
  | succ fuel ih =>
    intro s ii e hmem
    rw [destroyLoopAux] at hmem
    split at hmem
    · next h =>
      simp only [destroyStepFbh_events] at hmem
      split at hmem
      · rw [List.mem_append] at hmem
        rcases hmem with hm | hm
        · split at hm
          · simp at hm
            rcases hm with rfl | rfl
            · exact Or.inr ⟨ii, le_refl ii, h, Or.inl rfl⟩
            · exact Or.inl rfl
          · simp at hm
        · simp at hm
          exact hm ▸ Or.inr ⟨ii, le_refl ii, h, Or.inr rfl⟩
      · rw [List.mem_append] at hmem
        rcases hmem with hm | hm
        · split at hm
          · simp at hm
            rcases hm with rfl | rfl
            · exact Or.inr ⟨ii, le_refl ii, h, Or.inl rfl⟩
            · exact Or.inl rfl
          · simp at hm
        · rcases ih _ _ _ hm with he | ⟨j, hj1, hj2, hj3⟩
          · exact Or.inl he
          · exact Or.inr ⟨j, by omega, hj2, hj3⟩
    · simp at hmem

lemma destroyLoopAux_none (fuel : Nat) :
    ∀ (s : Tracker) (ii : Nat),
      (∀ j : Fin MAX_WINDOWS, ii ≤ j.val →
        entryIsValid ((s.m_windows j).m_handle) = false ∧ bgfxIsValid (s.m_fbh j) = false) →
      destroyLoopAux fuel s ii = (s, []) := by
  induction fuel with
  | zero => intro s ii _; rfl
  | succ fuel ih =>
    intro s ii hall
    by_cases hlt : ii < MAX_WINDOWS
    · rw [destroyLoopAux, dif_pos hlt]
      have hii := hall ⟨ii, hlt⟩ (le_refl ii)
      have hp : destroyStepFbh s ⟨ii, hlt⟩ = (s, []) := by
        unfold destroyStepFbh
        rw [if_neg]
        simp [hii.2]
      simp only [hp]
      rw [if_neg]
      · rw [ih s (ii + 1) (fun j hj => hall j (by omega))]
        rfl
      · simp [hii.1]
    · rw [destroyLoopAux, dif_neg hlt]

lemma destroyLoopAux_found (fuel : Nat) :
    ∀ (s : Tracker) (ii : Nat) (i : Fin MAX_WINDOWS),
      ii ≤ i.val → MAX_WINDOWS ≤ fuel + ii →
      (∀ j : Fin MAX_WINDOWS, ii ≤ j.val → j.val < i.val →
        entryIsValid ((s.m_windows j).m_handle) = false ∧ bgfxIsValid (s.m_fbh j) = false) →
      entryIsValid ((s.m_windows i).m_handle) = true →
      (destroyLoopAux fuel s ii).2 =
        (if bgfxIsValid (s.m_fbh i) then [Ev.destroyFbh i.val, Ev.frame, Ev.frame] else [])
          ++ [Ev.destroyWin i.val] ∧
      ((destroyLoopAux fuel s ii).1.m_windows i).m_handle = ⟨UINT16_MAX⟩ ∧
      (∀ j : Fin MAX_WINDOWS, j ≠ i → (destroyLoopAux fuel s ii).1.m_windows j = s.m_windows j) ∧
      bgfxIsValid ((destroyLoopAux fuel s ii).1.m_fbh i) = false ∧
      (∀ j : Fin MAX_WINDOWS, j ≠ i → (destroyLoopAux fuel s ii).1.m_fbh j = s.m_fbh j) := by
  induction fuel with
  | zero =>
    intro s ii i hle hfuel hall hvalid
    exact absurd i.isLt (by omega)
  | succ fuel ih =>
    intro s ii i hle hfuel hall hvalid
    have hlt : ii < MAX_WINDOWS := by omega
    by_cases heq : ii = i.val
    · have hieq : (⟨ii, hlt⟩ : Fin MAX_WINDOWS) = i := Fin.ext heq
      rw [destroyLoopAux, dif_pos hlt]
      simp only [hieq, destroyStepFbh_windows]
      rw [if_pos hvalid]
      refine ⟨?_, ?_, fun j hj => ?_, ?_, fun j hj => ?_⟩
      · simp [destroyStepFbh_events, heq]
      · simp
      · simp [destroyStepFbh_windows, hj]
      · exact destroyStepFbh_fbh_self s i
      · exact destroyStepFbh_fbh_ne s i j hj
    · have hii := hall ⟨ii, hlt⟩ (le_refl ii) (show ii < i.val by omega)
      have hp : destroyStepFbh s ⟨ii, hlt⟩ = (s, []) := by
        unfold destroyStepFbh
        rw [if_neg]
        simp [hii.2]
      rw [destroyLoopAux, dif_pos hlt]
      simp only [hp]
      rw [if_neg]
      · simpa using ih s (ii + 1) i (by omega) (by omega)
          (fun j h1 h2 => hall j (by omega) h2) hvalid
      · simp [hii.1]

lemma destroyStepFbh_fbh_cases (s : Tracker) (i j : Fin MAX_WINDOWS) :
    (destroyStepFbh s i).1.m_fbh j = s.m_fbh j ∨
    (destroyStepFbh s i).1.m_fbh j = ⟨kInvalidHandle⟩ := by
  unfold destroyStepFbh
  split
  · by_cases hj : j = i
    · subst hj; simp
    · simp [hj]
  · exact Or.inl rfl

lemma destroyLoopAux_fbh_cases (fuel : Nat) :
    ∀ (s : Tracker) (ii : Nat) (j : Fin MAX_WINDOWS),
      (destroyLoopAux fuel s ii).1.m_fbh j = s.m_fbh j ∨
      (destroyLoopAux fuel s ii).1.m_fbh j = ⟨kInvalidHandle⟩ := by
  induction fuel with
  | zero => intro s ii j; exact Or.inl rfl
  | succ fuel ih =>
    intro s ii j
    by_cases hlt : ii < MAX_WINDOWS
    · rw [destroyLoopAux, dif_pos hlt]
      simp only [destroyStepFbh_windows]
      by_cases hw : entryIsValid ((s.m_windows ⟨ii, hlt⟩).m_handle) = true
      · rw [if_pos hw]
        exact destroyStepFbh_fbh_cases s ⟨ii, hlt⟩ j
      · rw [if_neg hw]
        have h1 := ih (destroyStepFbh s ⟨ii, hlt⟩).1 (ii + 1) j
        have h2 := destroyStepFbh_fbh_cases s ⟨ii, hlt⟩ j
        show (destroyLoopAux fuel (destroyStepFbh s ⟨ii, hlt⟩).1 (ii + 1)).1.m_fbh j
            = s.m_fbh j ∨
          (destroyLoopAux fuel (destroyStepFbh s ⟨ii, hlt⟩).1 (ii + 1)).1.m_fbh j
            = ⟨kInvalidHandle⟩
        rcases h1 with h1 | h1
        · rcases h2 with h2 | h2
          · exact Or.inl (h1.trans h2)
          · exact Or.inr (h1.trans h2)
        · exact Or.inr h1
    · rw [destroyLoopAux, dif_neg hlt]
      exact Or.inl rfl

lemma destroyLoopAux_clears (fuel : Nat) :
    ∀ (s : Tracker) (ii : Nat) (i : Fin MAX_WINDOWS),
      Ev.destroyWin i.val ∈ (destroyLoopAux fuel s ii).2 →
      ((destroyLoopAux fuel s ii).1.m_windows i).m_handle.idx = UINT16_MAX ∧
      ((destroyLoopAux fuel s ii).1.m_fbh i).idx = kInvalidHandle := by
  induction fuel with
  | zero => intro s ii i hmem; simp [destroyLoopAux] at hmem
  | succ fuel ih =>
    intro s ii i hmem
    by_cases hlt : ii < MAX_WINDOWS
    · rw [destroyLoopAux, dif_pos hlt] at hmem ⊢
      simp only [destroyStepFbh_windows, destroyStepFbh_events] at hmem ⊢
      by_cases hw : entryIsValid ((s.m_windows ⟨ii, hlt⟩).m_handle) = true
      · rw [if_pos hw] at hmem ⊢
        have hival : i.val = ii := by
          rcases List.mem_append.mp hmem with hm | hm
          · split at hm <;> simp at hm
          · simpa using hm
        have hieq : i = ⟨ii, hlt⟩ := Fin.ext hival
        subst hieq
        constructor
        · simp
        · exact (bgfxIsValid_false_iff _).mp (destroyStepFbh_fbh_self s ⟨ii, hlt⟩)
      · rw [if_neg hw] at hmem ⊢
        have hm : Ev.destroyWin i.val
            ∈ (destroyLoopAux fuel (destroyStepFbh s ⟨ii, hlt⟩).1 (ii + 1)).2 := by
          rcases List.mem_append.mp hmem with hm | hm
          · split at hm <;> simp at hm
          · exact hm
        simpa using ih (destroyStepFbh s ⟨ii, hlt⟩).1 (ii + 1) i hm
    · rw [destroyLoopAux, dif_neg hlt] at hmem
      simp at hmem

lemma destroyLoopAux_trace (fuel : Nat) :
    ∀ (s : Tracker) (ii : Nat) (i : Fin MAX_WINDOWS),
      bgfxIsValid (s.m_fbh i) = true →
      Ev.destroyWin i.val ∈ (destroyLoopAux fuel s ii).2 →
      ∃ pre, (destroyLoopAux fuel s ii).2
          = pre ++ [Ev.destroyFbh i.val, Ev.frame, Ev.frame, Ev.destroyWin i.val]
        ∧ Ev.destroyFbh i.val ∉ pre ∧ Ev.destroyWin i.val ∉ pre := by
  induction fuel with
  | zero => intro s ii i _ hmem; simp [destroyLoopAux] at hmem
  | succ fuel ih =>
    intro s ii i hfb hmem
    by_cases hlt : ii < MAX_WINDOWS
    · rw [destroyLoopAux, dif_pos hlt] at hmem ⊢
      simp only [destroyStepFbh_windows, destroyStepFbh_events] at hmem ⊢
      by_cases hw : entryIsValid ((s.m_windows ⟨ii, hlt⟩).m_handle) = true
      · rw [if_pos hw] at hmem ⊢
        have hival : i.val = ii := by
          rcases List.mem_append.mp hmem with hm | hm
          · split at hm <;> simp at hm
          · simpa using hm
        have hieq : i = ⟨ii, hlt⟩ := Fin.ext hival
        subst hieq
        rw [if_pos hfb]
        exact ⟨[], by simp, by simp, by simp⟩
      · rw [if_neg hw] at hmem ⊢
        have hm : Ev.destroyWin i.val
            ∈ (destroyLoopAux fuel (destroyStepFbh s ⟨ii, hlt⟩).1 (ii + 1)).2 := by
          rcases List.mem_append.mp hmem with hm | hm
          · split at hm <;> simp at hm
          · exact hm
        have hival : ii + 1 ≤ i.val := by
          rcases destroyLoopAux_tags fuel _ _ _ hm with he | ⟨j, hj1, hj2, hj3⟩
          · simp at he
          · rcases hj3 with h3 | h3
            · simp at h3
            · have : i.val = j := by simpa using h3
              omega
        have hne : i ≠ ⟨ii, hlt⟩ := by
          intro hcon
          rw [hcon] at hival
          simp at hival
        have hfb' : bgfxIsValid ((destroyStepFbh s ⟨ii, hlt⟩).1.m_fbh i) = true := by
          rw [destroyStepFbh_fbh_ne s _ i hne]
          exact hfb
        rcases ih _ (ii + 1) i hfb' hm with ⟨pre, heqq, hnf, hnw⟩
        refine ⟨(if bgfxIsValid (s.m_fbh ⟨ii, hlt⟩) = true
            then [Ev.destroyFbh ii, Ev.frame, Ev.frame] else []) ++ pre, ?_, ?_, ?_⟩
        · rw [List.append_assoc, ← heqq]
        · intro hc
          rcases List.mem_append.mp hc with hc | hc
          · split at hc
            · simp at hc
              omega
            · simp at hc
          · exact hnf hc
        · intro hc
          rcases List.mem_append.mp hc with hc | hc
          · split at hc <;> simp at hc
          · exact hnw hc
    · rw [destroyLoopAux, dif_neg hlt] at hmem
      simp at hmem

lemma updateSlot_fbh_ne (s : Tracker) (st : WindowState) (fb : FrameBufferHandle)
    (i j : Fin MAX_WINDOWS) (hj : j ≠ i) :
    (updateSlot s st fb i).1.m_fbh j = s.m_fbh j := by
  simp only [updateSlot]
  split_ifs <;> simp [hj]

lemma updateSlot_windows_ne (s : Tracker) (st : WindowState) (fb : FrameBufferHandle)
    (i j : Fin MAX_WINDOWS) (hj : j ≠ i) :
    (updateSlot s st fb i).1.m_windows j = s.m_windows j := by
  simp only [updateSlot]
  split_ifs <;> simp [hj]

lemma updateTracking_fbh0 (s : Tracker) (st : WindowState) (fb : FrameBufferHandle)
    (s' : Tracker) (tr : List Ev)
    (hb : entryIsValid st.m_handle = true → st.m_handle.idx < MAX_WINDOWS)
    (hu : updateTracking s st fb = some (s', tr)) :
    s'.m_fbh ⟨0, by decide⟩ = s.m_fbh ⟨0, by decide⟩ := by
  unfold updateTracking at hu
  by_cases hv : entryIsValid st.m_handle = true
  · rw [if_pos hv] at hu
    by_cases h0 : st.m_handle.idx = 0
    · rw [if_pos h0] at hu
      injection hu with hu
      have h1 : { s with m_width := st.m_width, m_height := st.m_height } = s' :=
        congrArg Prod.fst hu
      rw [← h1]
    · rw [if_neg h0] at hu
      have h8 : st.m_handle.idx % 256 < MAX_WINDOWS := by
        have := hb hv
        omega
      rw [dif_pos h8] at hu
      injection hu with hu
      have h1 : (updateSlot s st fb ⟨st.m_handle.idx % 256, h8⟩).1 = s' :=
        congrArg Prod.fst hu
      rw [← h1]
      refine updateSlot_fbh_ne s st fb _ _ ?_
      have h9 : st.m_handle.idx < 8 := hb hv
      simp only [ne_eq, Fin.mk.injEq]
      omega
  · rw [if_neg hv] at hu
    injection hu with hu
    have h1 : s = s' := congrArg Prod.fst hu
    rw [← h1]

lemma createWindow_fbh (s : Tracker) (h : WindowHandle) (s' : Tracker)
    (hc : createWindow s h = some s') : s'.m_fbh = s.m_fbh := by
  unfold createWindow at hc
  by_cases hv : entryIsValid h = true
  · rw [if_pos hv] at hc
    by_cases hlt : h.idx < MAX_WINDOWS
    · rw [dif_pos hlt] at hc
      injection hc with hc
      rw [← hc]
    · rw [dif_neg hlt] at hc
      cases hc
  · rw [if_neg hv] at hc
    injection hc with hc
    rw [← hc]

/-- Claim C1: the default slot never acquires a frame buffer.  In every
reachable tracker state `m_fbh[0]` is invalid: `init` fills the table with
`kInvalidHandle`, `update` creates a frame buffer only for a nonzero reported
window-handle index, `createWindow` never touches `m_fbh`, and `destroyWindow`
only invalidates frame-buffer handles. -/
theorem fbh0_invariant (s : Tracker) (hr : Reachable s) :
    bgfxIsValid (s.m_fbh ⟨0, by decide⟩) = false := by
  induction hr with
  | init w h => simp [initTracker, bgfxIsValid]
  | step s s' hr hstep ih =>
    cases hstep with
    | update st fb s' tr hb hu =>
      rw [updateTracking_fbh0 _ _ _ _ _ hb hu]
      exact ih
    | create h s' hb hc =>
      rw [createWindow_fbh _ _ _ hc]
      exact ih
    | destroy =>
      show bgfxIsValid ((destroyLoopAux MAX_WINDOWS s 0).1.m_fbh ⟨0, by decide⟩) = false
      rcases destroyLoopAux_fbh_cases MAX_WINDOWS s 0 ⟨0, by decide⟩ with hc | hc
      · rw [hc]
        exact ih
      · rw [hc]
        rfl

/-- Witness for C1 at a concrete reachable state. -/
theorem fbh0_invariant_witness :
    bgfxIsValid ((initTracker 1280 720).m_fbh ⟨0, by decide⟩) = false :=
  fbh0_invariant (initTracker 1280 720) (Reachable.init 1280 720)

/-- Claim C2: each `destroyWindow` call finds the first occupied non-default
slot, destroys that slot's frame buffer if one is present, then destroys its
OS window and clears the slot's window handle; it destroys only one window per
call — all other slots' window handles (and frame buffers) are unchanged, and
when no slot is occupied nothing happens.  The two hypotheses are reachable-
state invariants: slot 0 never records a window handle, and a slot holding a
valid frame buffer also holds a valid window handle. -/
theorem destroyWindow_first_occupied (s : Tracker)
    (h0 : entryIsValid ((s.m_windows ⟨0, by decide⟩).m_handle) = false)
    (hinv : ∀ j : Fin MAX_WINDOWS, bgfxIsValid (s.m_fbh j) = true →
      entryIsValid ((s.m_windows j).m_handle) = true) :
    (∀ i : Fin MAX_WINDOWS,
      entryIsValid ((s.m_windows i).m_handle) = true →
      (∀ j : Fin MAX_WINDOWS, j.val < i.val →
        entryIsValid ((s.m_windows j).m_handle) = false) →
      1 ≤ i.val ∧
      (destroyWindow s).2 =
        (if bgfxIsValid (s.m_fbh i) then [Ev.destroyFbh i.val, Ev.frame, Ev.frame] else [])
          ++ [Ev.destroyWin i.val] ∧
      entryIsValid (((destroyWindow s).1.m_windows i).m_handle) = false ∧
      (∀ j : Fin MAX_WINDOWS, j ≠ i → (destroyWindow s).1.m_windows j = s.m_windows j) ∧
      bgfxIsValid ((destroyWindow s).1.m_fbh i) = false ∧
      (∀ j : Fin MAX_WINDOWS, j ≠ i → (destroyWindow s).1.m_fbh j = s.m_fbh j)) ∧
    ((∀ i : Fin MAX_WINDOWS, entryIsValid ((s.m_windows i).m_handle) = false) →
      destroyWindow s = (s, [])) := by
  have hfb_of : ∀ j : Fin MAX_WINDOWS, entryIsValid ((s.m_windows j).m_handle) = false →
      bgfxIsValid (s.m_fbh j) = false := by
    intro j hw
    cases hb : bgfxIsValid (s.m_fbh j)
    · rfl
    · rw [hinv j hb] at hw
      cases hw
  rw [show destroyWindow s = destroyLoopAux MAX_WINDOWS s 0 from rfl]
  constructor
  · intro i hvalid hleast
    have h1 : 1 ≤ i.val := by
      by_contra hcon
      have hi0 : i = ⟨0, by decide⟩ := Fin.ext (show i.val = 0 by omega)
      rw [hi0, h0] at hvalid
      cases hvalid
    have hfound := destroyLoopAux_found MAX_WINDOWS s 0 i (by omega) (by omega)
      (fun j _ hj => ⟨hleast j hj, hfb_of j (hleast j hj)⟩) hvalid
    refine ⟨h1, hfound.1, ?_, hfound.2.2.1, hfound.2.2.2.1, hfound.2.2.2.2⟩
    rw [hfound.2.1]
    rfl
  · intro hnone
    exact destroyLoopAux_none MAX_WINDOWS s 0 (fun j _ => ⟨hnone j, hfb_of j (hnone j)⟩)

/-- Witness for C2 at a concrete state: window 2 is the first occupied
non-default slot of `sampleT` and holds a frame buffer. -/
theorem destroyWindow_first_occupied_witness :
    (destroyWindow sampleT).2
      = [Ev.destroyFbh 2, Ev.frame, Ev.frame, Ev.destroyWin 2] := by
  have h := (destroyWindow_first_occupied sampleT (by decide) (by decide)).1
    ⟨2, by decide⟩ (by decide) (by decide)
  rw [h.2.1]
  rfl

/-- Claim C3: whenever `destroyWindow` destroys the frame buffer of a slot
whose OS window it also destroys, exactly two `bgfx::frame()` flushes stand
between `bgfx::destroy(m_fbh[i])` and `entry::destroyWindow`, and a window
whose slot held a valid frame buffer is never destroyed without that flush:
the call's trace ends `destroyFbh i, frame, frame, destroyWin i`, and slot
`i`'s events occur nowhere else in it. -/
theorem destroyWindow_two_frame_flush (s : Tracker) (i : Fin MAX_WINDOWS)
    (hfb : bgfxIsValid (s.m_fbh i) = true)
    (hmem : Ev.destroyWin i.val ∈ (destroyWindow s).2) :
    ∃ pre, (destroyWindow s).2
        = pre ++ [Ev.destroyFbh i.val, Ev.frame, Ev.frame, Ev.destroyWin i.val]
      ∧ Ev.destroyFbh i.val ∉ pre ∧ Ev.destroyWin i.val ∉ pre :=
  destroyLoopAux_trace MAX_WINDOWS s 0 i hfb hmem

/-- Witness for C3 at a concrete state. -/
theorem destroyWindow_two_frame_flush_witness :
    ∃ pre, (destroyWindow sampleT).2
        = pre ++ [Ev.destroyFbh 2, Ev.frame, Ev.frame, Ev.destroyWin 2]
      ∧ Ev.destroyFbh 2 ∉ pre ∧ Ev.destroyWin 2 ∉ pre :=
  destroyWindow_two_frame_flush sampleT ⟨2, by decide⟩ (by decide) (by decide)

/-- Claim C4: after a `destroyWindow` call that destroys the window at slot
`i`, the slot's window handle index is `UINT16_MAX` and its frame-buffer
handle index is `bgfx::kInvalidHandle`. -/
theorem destroyWindow_clears_slot (s : Tracker) (i : Fin MAX_WINDOWS)
    (hmem : Ev.destroyWin i.val ∈ (destroyWindow s).2) :
    ((destroyWindow s).1.m_windows i).m_handle.idx = UINT16_MAX ∧
    ((destroyWindow s).1.m_fbh i).idx = kInvalidHandle :=
  destroyLoopAux_clears MAX_WINDOWS s 0 i hmem

/-- Witness for C4 at a concrete state. -/
theorem destroyWindow_clears_slot_witness :
    ((destroyWindow sampleT).1.m_windows ⟨2, by decide⟩).m_handle.idx = UINT16_MAX ∧
    ((destroyWindow sampleT).1.m_fbh ⟨2, by decide⟩).idx = kInvalidHandle :=
  destroyWindow_clears_slot sampleT ⟨2, by decide⟩ (by decide)

lemma updateSlot_match (s : Tracker) (st : WindowState) (fb : FrameBufferHandle)
    (i : Fin MAX_WINDOWS)
    (hmatch : (s.m_windows i).m_nwh = st.m_nwh ∧ (s.m_windows i).m_width = st.m_width
      ∧ (s.m_windows i).m_height = st.m_height) :
    updateSlot s st fb i = (s, []) := by
  simp only [updateSlot]
  rw [if_neg]
  simp [hmatch.1, hmatch.2.1, hmatch.2.2]

lemma updateSlot_mismatch_some (s : Tracker) (st : WindowState) (fb : FrameBufferHandle)
    (i : Fin MAX_WINDOWS)
    (hmis : (s.m_windows i).m_nwh ≠ st.m_nwh ∨ (s.m_windows i).m_width ≠ st.m_width
      ∨ (s.m_windows i).m_height ≠ st.m_height)
    (hn : st.m_nwh ≠ none) :
    updateSlot s st fb i =
      ({ s with
          m_windows := fun j =>
            (if j = i then
              { s.m_windows i with
                  m_nwh := st.m_nwh, m_width := st.m_width, m_height := st.m_height }
            else s.m_windows j)
        , m_fbh := fun j => (if j = i then fb else
            (if bgfxIsValid (s.m_fbh i) then
              (fun j' => if j' = i then ⟨kInvalidHandle⟩ else s.m_fbh j')
            else s.m_fbh) j) }
      , (if bgfxIsValid (s.m_fbh i) then [Ev.destroyFbh i.val] else [])
          ++ [Ev.createFbh i.val (st.m_width % 65536) (st.m_height % 65536)]) := by
  simp only [updateSlot]
  rw [if_pos hmis, if_pos hn]

lemma updateSlot_mismatch_none (s : Tracker) (st : WindowState) (fb : FrameBufferHandle)
    (i : Fin MAX_WINDOWS)
    (hmis : (s.m_windows i).m_nwh ≠ st.m_nwh ∨ (s.m_windows i).m_width ≠ st.m_width
      ∨ (s.m_windows i).m_height ≠ st.m_height)
    (hn : st.m_nwh = none) :
    updateSlot s st fb i =
      ({ s with
          m_windows := fun j =>
            (if j = i then
              { s.m_windows i with
                  m_nwh := st.m_nwh, m_width := st.m_width, m_height := st.m_height,
                  m_handle := ⟨UINT16_MAX⟩ }
            else s.m_windows j)
        , m_fbh := (if bgfxIsValid (s.m_fbh i) then
            (fun j => if j = i then ⟨kInvalidHandle⟩ else s.m_fbh j)
          else s.m_fbh) }
      , (if bgfxIsValid (s.m_fbh i) then [Ev.destroyFbh i.val] else [])) := by
  simp only [updateSlot]
  rw [if_pos hmis, if_neg (by simp [hn])]

lemma updateSlot_events (s : Tracker) (st : WindowState) (fb : FrameBufferHandle)
    (i : Fin MAX_WINDOWS) :
    (updateSlot s st fb i).2 =
      if (s.m_windows i).m_nwh ≠ st.m_nwh ∨ (s.m_windows i).m_width ≠ st.m_width
          ∨ (s.m_windows i).m_height ≠ st.m_height then
        (if bgfxIsValid (s.m_fbh i) then [Ev.destroyFbh i.val] else [])
          ++ (if st.m_nwh ≠ none then
              [Ev.createFbh i.val (st.m_width % 65536) (st.m_height % 65536)] else [])
      else [] := by
  simp only [updateSlot]
  split_ifs <;> simp

lemma updateTracking_eq_slot (s : Tracker) (st : WindowState) (fb : FrameBufferHandle)
    (hv : entryIsValid st.m_handle = true) (h0 : st.m_handle.idx ≠ 0)
    (h8 : st.m_handle.idx < MAX_WINDOWS) :
    updateTracking s st fb = some (updateSlot s st fb ⟨st.m_handle.idx, h8⟩) := by
  unfold updateTracking
  rw [if_pos hv, if_neg h0]
  have h8' : st.m_handle.idx % 256 < MAX_WINDOWS := by
    have h9 : st.m_handle.idx < 8 := h8
    omega
  rw [dif_pos h8']
  have hieq : (⟨st.m_handle.idx % 256, h8'⟩ : Fin MAX_WINDOWS) = ⟨st.m_handle.idx, h8⟩ :=
    Fin.ext (Nat.mod_eq_of_lt (by
      have h9 : st.m_handle.idx < 8 := h8
      omega))
  rw [hieq]

/-- Claim C5: on a tracking tick, if a slot still holds a valid frame buffer
and a new frame buffer is created for that slot, the old one is destroyed
(and marked invalid) first — the tick's trace is exactly `destroyFbh i`
immediately followed by `createFbh i`; a creation never happens while the old
frame buffer of the same slot is still held. -/
theorem updateTracking_destroy_before_create (s : Tracker) (st : WindowState)
    (fb : FrameBufferHandle) (s' : Tracker) (tr : List Ev)
    (hu : updateTracking s st fb = some (s', tr)) (i : Fin MAX_WINDOWS)
    (hold : bgfxIsValid (s.m_fbh i) = true) (w h : Nat)
    (hc : Ev.createFbh i.val w h ∈ tr) :
    tr = [Ev.destroyFbh i.val, Ev.createFbh i.val w h] := by
  unfold updateTracking at hu
  by_cases hv : entryIsValid st.m_handle = true
  · rw [if_pos hv] at hu
    by_cases h0 : st.m_handle.idx = 0
    · rw [if_pos h0] at hu
      injection hu with hu
      have htr : ([] : List Ev) = tr := congrArg Prod.snd hu
      rw [← htr] at hc
      simp at hc
    · rw [if_neg h0] at hu
      by_cases h8 : st.m_handle.idx % 256 < MAX_WINDOWS
      · rw [dif_pos h8] at hu
        injection hu with hu
        have htr : (updateSlot s st fb ⟨st.m_handle.idx % 256, h8⟩).2 = tr :=
          congrArg Prod.snd hu
        rw [updateSlot_events] at htr
        by_cases hmis : (s.m_windows ⟨st.m_handle.idx % 256, h8⟩).m_nwh ≠ st.m_nwh
            ∨ (s.m_windows ⟨st.m_handle.idx % 256, h8⟩).m_width ≠ st.m_width
            ∨ (s.m_windows ⟨st.m_handle.idx % 256, h8⟩).m_height ≠ st.m_height
        · rw [if_pos hmis] at htr
          by_cases hn : st.m_nwh ≠ none
          · rw [if_pos hn] at htr
            rw [← htr] at hc
            have hext : i.val = st.m_handle.idx % 256 ∧ w = st.m_width % 65536
                ∧ h = st.m_height % 65536 := by
              rcases List.mem_append.mp hc with hm | hm
              · split at hm <;> simp at hm
              · simpa using hm
            have hieq : i = ⟨st.m_handle.idx % 256, h8⟩ := Fin.ext hext.1
            rw [hieq] at hold
            rw [← htr, if_pos hold]
            simp [hieq, hext.2.1, hext.2.2]
          · rw [if_neg hn] at htr
            rw [← htr] at hc
            rcases List.mem_append.mp hc with hm | hm
            · split at hm <;> simp at hm
            · simp at hm
        · rw [if_neg hmis] at htr
          rw [← htr] at hc
          simp at hc
      · rw [dif_neg h8] at hu
        cases hu
  · rw [if_neg hv] at hu
    injection hu with hu
    have htr : ([] : List Ev) = tr := congrArg Prod.snd hu
    rw [← htr] at hc
    simp at hc

/-- Witness for C5 at a concrete input: window 2's native handle changes
while its frame buffer is still held. -/
theorem updateTracking_destroy_before_create_witness :
    ∃ s' tr, updateTracking sampleT
        { m_handle := ⟨2⟩, m_nwh := some 101, m_width := 640, m_height := 480 } ⟨7⟩
      = some (s', tr) ∧ tr = [Ev.destroyFbh 2, Ev.createFbh 2 640 480] :=
  ⟨(updateSlot sampleT
      { m_handle := ⟨2⟩, m_nwh := some 101, m_width := 640, m_height := 480 } ⟨7⟩
      ⟨2, by decide⟩).1,
   (updateSlot sampleT
      { m_handle := ⟨2⟩, m_nwh := some 101, m_width := 640, m_height := 480 } ⟨7⟩
      ⟨2, by decide⟩).2, rfl,
   updateTracking_destroy_before_create sampleT
    { m_handle := ⟨2⟩, m_nwh := some 101, m_width := 640, m_height := 480 } ⟨7⟩
    (updateSlot sampleT
      { m_handle := ⟨2⟩, m_nwh := some 101, m_width := 640, m_height := 480 } ⟨7⟩
      ⟨2, by decide⟩).1
    (updateSlot sampleT
      { m_handle := ⟨2⟩, m_nwh := some 101, m_width := 640, m_height := 480 } ⟨7⟩
      ⟨2, by decide⟩).2
    rfl ⟨2, by decide⟩ (by decide) 640 480 (by decide)⟩

/-- Claim C6: a frame tick compares the externally reported native handle and
size for the reported slot against the stored values; on any mismatch the
existing frame buffer is destroyed and — if the window still exists (native
handle non-NULL) — a new frame buffer (the collaborator's result, requested at
the newly stored width and height) is installed; if the native handle is NULL
no frame buffer is created and the slot's window handle is invalidated; on a
match nothing changes.  `update` processes the one slot named by the reported
state per tick, so over successive ticks this covers each slot. -/
theorem updateTracking_frame_tick (s : Tracker) (st : WindowState) (fb : FrameBufferHandle)
    (hv : entryIsValid st.m_handle = true) (hnz : st.m_handle.idx ≠ 0)
    (h8 : st.m_handle.idx < MAX_WINDOWS)
    (hw16 : st.m_width < 65536) (hh16 : st.m_height < 65536) :
    ∀ i : Fin MAX_WINDOWS, i.val = st.m_handle.idx →
      (((s.m_windows i).m_nwh = st.m_nwh ∧ (s.m_windows i).m_width = st.m_width ∧
          (s.m_windows i).m_height = st.m_height) →
        updateTracking s st fb = some (s, [])) ∧
      (((s.m_windows i).m_nwh ≠ st.m_nwh ∨ (s.m_windows i).m_width ≠ st.m_width ∨
          (s.m_windows i).m_height ≠ st.m_height) →
        ∃ s' tr, updateTracking s st fb = some (s', tr) ∧
          (bgfxIsValid (s.m_fbh i) = true → Ev.destroyFbh i.val ∈ tr) ∧
          (s'.m_windows i).m_nwh = st.m_nwh ∧
          (s'.m_windows i).m_width = st.m_width ∧
          (s'.m_windows i).m_height = st.m_height ∧
          (∀ j : Fin MAX_WINDOWS, j ≠ i →
            s'.m_windows j = s.m_windows j ∧ s'.m_fbh j = s.m_fbh j) ∧
          (st.m_nwh ≠ none →
            s'.m_fbh i = fb ∧ Ev.createFbh i.val st.m_width st.m_height ∈ tr ∧
            (s'.m_windows i).m_handle = (s.m_windows i).m_handle) ∧
          (st.m_nwh = none →
            bgfxIsValid (s'.m_fbh i) = false ∧ (∀ w h, Ev.createFbh i.val w h ∉ tr) ∧
            (s'.m_windows i).m_handle.idx = UINT16_MAX)) := by
  intro i hi
  have hieq : (⟨st.m_handle.idx, h8⟩ : Fin MAX_WINDOWS) = i := Fin.ext hi.symm
  have hbr := updateTracking_eq_slot s st fb hv hnz h8
  rw [hieq] at hbr
  constructor
  · intro hmatch
    rw [hbr, updateSlot_match s st fb i hmatch]
  · intro hmis
    refine ⟨(updateSlot s st fb i).1, (updateSlot s st fb i).2, by rw [hbr], ?_, ?_, ?_, ?_,
      fun j hj => ⟨updateSlot_windows_ne s st fb i j hj, updateSlot_fbh_ne s st fb i j hj⟩,
      ?_, ?_⟩
    · intro hval
      rw [updateSlot_events, if_pos hmis]
      by_cases hn : st.m_nwh ≠ none <;> simp [hval, hn]
    · by_cases hn : st.m_nwh = none
      · rw [updateSlot_mismatch_none s st fb i hmis hn]
        simp
      · rw [updateSlot_mismatch_some s st fb i hmis hn]
        simp
    · by_cases hn : st.m_nwh = none
      · rw [updateSlot_mismatch_none s st fb i hmis hn]
        simp
      · rw [updateSlot_mismatch_some s st fb i hmis hn]
        simp
    · by_cases hn : st.m_nwh = none
      · rw [updateSlot_mismatch_none s st fb i hmis hn]
        simp
      · rw [updateSlot_mismatch_some s st fb i hmis hn]
        simp
    · intro hn
      rw [updateSlot_mismatch_some s st fb i hmis hn]
      refine ⟨by simp, ?_, by simp⟩
      simp [Nat.mod_eq_of_lt hw16, Nat.mod_eq_of_lt hh16]
    · intro hn
      rw [updateSlot_mismatch_none s st fb i hmis hn]
      refine ⟨?_, ?_, by simp⟩
      · by_cases hval : bgfxIsValid (s.m_fbh i) = true
        · rw [if_pos hval]
          simp [bgfxIsValid]
        · rw [if_neg hval]
          simpa using hval
      · intro w h'
        by_cases hval : bgfxIsValid (s.m_fbh i) = true <;> simp [hval]

/-- Witness for C6 at a concrete input: the reported state of window 2
matches the stored one, so the tick is a no-op. -/
theorem updateTracking_frame_tick_witness :
    updateTracking sampleT
        { m_handle := ⟨2⟩, m_nwh := some 100, m_width := 640, m_height := 480 } ⟨7⟩
      = some (sampleT, []) :=
  (updateTracking_frame_tick sampleT
      { m_handle := ⟨2⟩, m_nwh := some 100, m_width := 640, m_height := 480 } ⟨7⟩
      (by decide) (by decide) (by decide) (by decide) (by decide)
      ⟨2, by decide⟩ (by decide)).1 (by decide)

/-- Claim C7: `createWindow` asks the windowing collaborator for a window at a
randomized position with fixed size 640 by 480; when the collaborator returns
an invalid handle no slot is modified, and when it returns the handle of the
first free slot (the spec-modelled collaborator behaviour of `firstFreeSlot`)
that handle is recorded in that slot and nothing else changes. -/
theorem createWindow_spec (s : Tracker) (h : WindowHandle) (rx ry : Nat) :
    (createWindowRequest rx ry).2.2 = (640, 480) ∧
    (entryIsValid h = false → createWindow s h = some s) ∧
    (∀ i : Fin MAX_WINDOWS, firstFreeSlot s = some i → h.idx = i.val →
      ∃ s', createWindow s h = some s' ∧
        (s'.m_windows i).m_handle = h ∧
        (∀ j : Fin MAX_WINDOWS, j ≠ i → s'.m_windows j = s.m_windows j) ∧
        s'.m_fbh = s.m_fbh ∧ s'.m_frame = s.m_frame ∧
        s'.m_width = s.m_width ∧ s'.m_height = s.m_height) := by
  refine ⟨rfl, ?_, ?_⟩
  · intro hinv
    unfold createWindow
    rw [if_neg (by simp [hinv])]
  · intro i hfree hidx
    have hlt : h.idx < MAX_WINDOWS := by
      rw [hidx]
      exact i.isLt
    have hv : entryIsValid h = true := by
      simp only [entryIsValid, bne_iff_ne, ne_eq, UINT16_MAX]
      have h9 : h.idx < 8 := hlt
      omega
    unfold createWindow
    rw [if_pos hv, dif_pos hlt]
    have hieq : (⟨h.idx, hlt⟩ : Fin MAX_WINDOWS) = i := Fin.ext hidx
    refine ⟨_, rfl, ?_, fun j hj => ?_, rfl, rfl, rfl, rfl⟩
    · simp [hieq]
    · simp [hieq, hj]

/-- Witness for C7 at a concrete input: slot 1 is the first free slot of
`sampleT` and the collaborator returns handle 1. -/
theorem createWindow_spec_witness :
    ∃ s', createWindow sampleT ⟨1⟩ = some s' ∧
      (s'.m_windows ⟨1, by decide⟩).m_handle = ⟨1⟩ ∧
      (∀ j : Fin MAX_WINDOWS, j ≠ ⟨1, by decide⟩ → s'.m_windows j = sampleT.m_windows j) ∧
      s'.m_fbh = sampleT.m_fbh ∧ s'.m_frame = sampleT.m_frame ∧
      s'.m_width = sampleT.m_width ∧ s'.m_height = sampleT.m_height :=
  (createWindow_spec sampleT ⟨1⟩ 0 0).2.2 ⟨1, by decide⟩ (by decide) rfl

/-- Claim C10: under the precondition that every window handle index supplied
by the windowing collaborator is below `MAX_WINDOWS`, every slot-table access
of the tracking tick and of `createWindow` is in range — the out-of-bounds
(`none`) branch is unreachable. -/
theorem slot_accesses_in_bounds (s : Tracker) (st : WindowState) (fb : FrameBufferHandle)
    (h : WindowHandle) (hst : st.m_handle.idx < MAX_WINDOWS) (hh : h.idx < MAX_WINDOWS) :
    (updateTracking s st fb).isSome = true ∧ (createWindow s h).isSome = true := by
  constructor
  · unfold updateTracking
    by_cases hv : entryIsValid st.m_handle = true
    · rw [if_pos hv]
      by_cases h0 : st.m_handle.idx = 0
      · rw [if_pos h0]
        rfl
      · rw [if_neg h0, dif_pos (show st.m_handle.idx % 256 < MAX_WINDOWS by
          have h9 : st.m_handle.idx < 8 := hst
          omega)]
        rfl
    · rw [if_neg hv]
      rfl
  · unfold createWindow
    by_cases hv : entryIsValid h = true
    · rw [if_pos hv, dif_pos hh]
      rfl
    · rw [if_neg hv]
      rfl

/-- Witness for C10 at a concrete input. -/
theorem slot_accesses_in_bounds_witness :
    (updateTracking sampleT
        { m_handle := ⟨3⟩, m_nwh := some 50, m_width := 320, m_height := 200 }
        ⟨9⟩).isSome = true ∧
    (createWindow sampleT ⟨4⟩).isSome = true :=
  slot_accesses_in_bounds sampleT
    { m_handle := ⟨3⟩, m_nwh := some 50, m_width := 320, m_height := 200 }
    ⟨9⟩ ⟨4⟩ (by decide) (by decide)

lemma mem_finRange_drop_one (i : Fin MAX_WINDOWS) :
    i ∈ (List.finRange MAX_WINDOWS).drop 1 ↔ 1 ≤ i.val := by
  fin_cases i <;> decide

/-- Claim C8: screenshot capture is periodic with period 300: on a tick whose
frame counter is a multiple of 300 a screenshot is requested for the default
backbuffer and for every slot holding a valid frame buffer, under
`temp/frame_<m_frame/300>_<slot>`, and nothing else is requested; on every
other tick no screenshot is requested.  The hypothesis that slot 0 holds no
frame buffer is a reachable-state invariant (claim C1). -/
theorem screenshot_periodic (s : Tracker)
    (h0 : bgfxIsValid (s.m_fbh ⟨0, by decide⟩) = false) :
    (s.m_frame % 300 ≠ 0 → screenShotRequests s = []) ∧
    (s.m_frame % 300 = 0 →
      ((⟨kInvalidHandle⟩ : FrameBufferHandle),
        "temp/" ++ "frame_" ++ Nat.repr (s.m_frame / 300) ++ "_0") ∈ screenShotRequests s ∧
      (∀ i : Fin MAX_WINDOWS, bgfxIsValid (s.m_fbh i) = true →
        (s.m_fbh i,
          "temp/" ++ "frame_" ++ Nat.repr (s.m_frame / 300) ++ "_" ++ Nat.repr i.val)
          ∈ screenShotRequests s) ∧
      (∀ p ∈ screenShotRequests s,
        p = ((⟨kInvalidHandle⟩ : FrameBufferHandle),
          "temp/" ++ "frame_" ++ Nat.repr (s.m_frame / 300) ++ "_0") ∨
        ∃ i : Fin MAX_WINDOWS, bgfxIsValid (s.m_fbh i) = true ∧
          p = (s.m_fbh i,
            "temp/" ++ "frame_" ++ Nat.repr (s.m_frame / 300) ++ "_" ++ Nat.repr i.val))) := by
  constructor
  · intro hne
    unfold screenShotRequests
    rw [if_neg hne]
    simp only [List.nil_append]
    rw [List.filterMap_eq_nil_iff]
    intro a ha
    split <;> simp [hne]
  · intro hz
    refine ⟨?_, ?_, ?_⟩
    · unfold screenShotRequests
      rw [if_pos hz]
      simp
    · intro i hval
      unfold screenShotRequests
      rw [if_pos hz]
      refine List.mem_append.mpr (Or.inr ?_)
      rw [List.mem_filterMap]
      refine ⟨i, ?_, ?_⟩
      · rw [mem_finRange_drop_one]
        by_contra hcon
        have hi0 : i = ⟨0, by decide⟩ := Fin.ext (show i.val = 0 by omega)
        rw [hi0, h0] at hval
        cases hval
      · rw [if_pos hval, if_pos hz]
    · intro p hp
      unfold screenShotRequests at hp
      rw [if_pos hz] at hp
      rcases List.mem_append.mp hp with hm | hm
      · simp at hm
        exact Or.inl hm
      · rw [List.mem_filterMap] at hm
        obtain ⟨a, ha, hfa⟩ := hm
        by_cases hval : bgfxIsValid (s.m_fbh a) = true
        · rw [if_pos hval, if_pos hz] at hfa
          injection hfa with hfa
          exact Or.inr ⟨a, hval, hfa.symm⟩
        · rw [if_neg hval] at hfa
          cases hfa

/-- Witness for C8 at a concrete state: `sampleT` sits on frame 600. -/
theorem screenshot_periodic_witness :
    ((⟨kInvalidHandle⟩ : FrameBufferHandle),
      "temp/" ++ "frame_" ++ Nat.repr (sampleT.m_frame / 300) ++ "_0")
      ∈ screenShotRequests sampleT :=
  ((screenshot_periodic sampleT (by decide)).2 (by decide)).1

/-- Claim C9 as stated is false: the 121 cube submissions of one frame are
spread over the views round-robin by `count % MAX_WINDOWS`, so view 1 receives
15 of them, not the full 121. -/
theorem cube_submissions_not_all_121 :
    cubeSubmissions.count 1 = 15 ∧ ¬ cubeSubmissions.count 1 = 121 := by
  decide

/-- Claim C9 (amended): every frame submits the same 121 rotating-cube draws,
distributed round-robin over the `MAX_WINDOWS` views by `count % MAX_WINDOWS`:
view 0 receives 16 submissions and every other view 15. -/
theorem cube_submissions_round_robin :
    cubeSubmissions.length = 121 ∧
    ∀ v : Fin MAX_WINDOWS, cubeSubmissions.count v.val = if v.val = 0 then 16 else 15 := by
  decide
